import Mathlib

/-!
Verification of the image-generation client of the coloring-page converter
(`generateColoringPage` in `services/geminiService.ts`).

The function builds a prompt from two style enums, submits a single
multimodal request, scans the response for an inline-image part, and
classifies every failure into one of five kinds, re-wrapping internally
thrown errors in its catch block.  We embed the data model of the request
and response, the prompt composition, and the response-parsing / error
classification logic, and prove the specified properties about them.
-/

set_option maxRecDepth 10000

namespace ColoringPage

/-- `type LineThickness = 'thin' | 'medium' | 'bold'` -/
inductive LineThickness where
  | thin
  | medium
  | bold
deriving DecidableEq, Repr

/-- `type ImageQuality = 'low' | 'medium' | 'high'` -/
inductive ImageQuality where
  | low
  | medium
  | high
deriving DecidableEq, Repr

/-- Inline binary data of a content part: `{ data, mimeType }`. -/
structure InlineData where
  data : String
  mimeType : String
deriving DecidableEq, Repr

/-- A content part of a request or response; each field is optional as in the
SDK (`part.inlineData`, `part.text` may be absent). -/
structure Part where
  inlineData : Option InlineData
  text : Option String
deriving DecidableEq, Repr

/-- `candidate.content`, holding an optional list of parts. -/
structure Content where
  parts : Option (List Part)
deriving DecidableEq, Repr

/-- A response candidate: optional content and optional `finishReason`. -/
structure Candidate where
  content : Option Content
  finishReason : Option String
deriving DecidableEq, Repr

/-- The shape of `GenerateContentResponse` used by the source: an optional
candidate list and the aggregated optional `text` accessor. -/
structure GenerateContentResponse where
  candidates : Option (List Candidate)
  text : Option String
deriving DecidableEq, Repr

/-- `thicknessDescription` object literal: the fixed phrase for each
line-thickness value. -/
def thicknessDescription : LineThickness → String
  | LineThickness.thin => "thin and delicate outlines"
  | LineThickness.medium => "bold outlines"
  | LineThickness.bold => "extra bold and thick outlines"

/-- `qualityDescription` object literal: the fixed phrase for each
detail-level value. -/
def qualityDescription : ImageQuality → String
  | ImageQuality.low => "with simple details, suitable for young children"
  | ImageQuality.medium => "with a moderate amount of detail"
  | ImageQuality.high => "with intricate and fine details, suitable for adults"

/-- The `prompt` template literal, with the two fixed phrases substituted. -/
def prompt (lineThickness : LineThickness) (imageQuality : ImageQuality) : String :=
  "Transform this image into a black and white coloring book page. \nThe output should have clean, simple, and " ++
  thicknessDescription lineThickness ++
  ". \nIt should be " ++
  qualityDescription imageQuality ++
  ".\nRemove all shading, gradients, and colors. \nFocus on creating clear, distinct lines suitable for coloring. \nThe final image should be purely line art."

/-- Response modalities requested in the call configuration. -/
inductive Modality where
  | IMAGE
  | TEXT
deriving DecidableEq, Repr

/-- The single request submitted to `ai.models.generateContent`: model
identifier, content parts, and the `responseModalities` configuration. -/
structure GenerateContentRequest where
  model : String
  parts : List Part
  responseModalities : List Modality
deriving DecidableEq, Repr

/-- The request object built by `generateColoringPage` (lines 36-55 of the
source): the inline image part, the prompt part, the hardcoded model id, and
both modalities. -/
def buildRequest (base64ImageData : String) (mimeType : String)
    (lineThickness : LineThickness) (imageQuality : ImageQuality) :
    GenerateContentRequest :=
  { model := "gemini-2.5-flash-image-preview"
    parts := [
      { inlineData := some { data := base64ImageData, mimeType := mimeType }, text := none },
      { inlineData := none, text := some (prompt lineThickness imageQuality) }]
    responseModalities := [Modality.IMAGE, Modality.TEXT] }

/-- The optional chain `response.candidates?.[0]?.content?.parts?`: the list
of content parts that the function scans, when every link is present. -/
def scannedParts (response : GenerateContentResponse) : Option (List Part) :=
  ((response.candidates.bind List.head?).bind Candidate.content).bind Content.parts

/-- `response.candidates?.[0]?.content?.parts?.find(part => part.inlineData)`:
the first scanned part with inline data, if any. -/
def findImagePart (response : GenerateContentResponse) : Option Part :=
  (scannedParts response).bind (List.find? fun part => part.inlineData.isSome)

/-- `response.candidates?.[0]?.finishReason`. -/
def rejectionReason (response : GenerateContentResponse) : Option String :=
  (response.candidates.bind List.head?).bind Candidate.finishReason

/-- The five failure kinds of the error-handling design: safety block,
text-only response, no image data, wrapped API error, unknown error. -/
inductive GenFailure where
  | safetyBlocked
  | textOnlyResponse (text : String)
  | noImageReturned
  | apiError (message : String)
  | unknownError
deriving DecidableEq, Repr

/-- The exact `Error` message carried by each failure kind in the source. -/
def GenFailure.message : GenFailure → String
  | GenFailure.safetyBlocked =>
      "Image generation was blocked due to safety or policy reasons."
  | GenFailure.textOnlyResponse t =>
      "The model returned a text response instead of an image: \"" ++ t ++ "\""
  | GenFailure.noImageReturned =>
      "Failed to generate an image. The model did not return image data."
  | GenFailure.apiError m =>
      "An API error occurred: " ++ m
  | GenFailure.unknownError =>
      "An unknown error occurred while communicating with the API."

/-- JavaScript `String.prototype.trim`: strip leading and trailing whitespace.
Defined structurally on the character list so that it evaluates on concrete
strings. -/
def trimString (s : String) : String :=
  ⟨((s.data.dropWhile Char.isWhitespace).reverse.dropWhile Char.isWhitespace).reverse⟩

/-- The `else` branch of the response parse (lines 62-72): inspect the finish
reason, then the trimmed text, and pick the failure kind. -/
def classifyNoImage (response : GenerateContentResponse) : GenFailure :=
  if rejectionReason response = some "SAFETY" ∨ rejectionReason response = some "RECITATION" then
    GenFailure.safetyBlocked
  else
    match response.text.map trimString with
    | some textResponse =>
        if textResponse ≠ "" then GenFailure.textOnlyResponse textResponse
        else GenFailure.noImageReturned
    | none => GenFailure.noImageReturned

/-- Lines 57-73: find the image part; if present with inline data, succeed
with its `data` field; otherwise throw the classified failure. -/
def parseResponse (response : GenerateContentResponse) : Except GenFailure String :=
  match findImagePart response with
  | some imagePart =>
      match imagePart.inlineData with
      | some d => Except.ok d.data
      | none => Except.error (classifyNoImage response)
  | none => Except.error (classifyNoImage response)

/-- A JavaScript thrown value as discriminated by the catch block: either an
`Error` instance carrying a message, or any other value. -/
inductive Thrown where
  | jsError (message : String)
  | nonError
deriving DecidableEq, Repr

/-- The catch block (lines 74-80): an `Error` instance is re-wrapped into an
API-error message, anything else becomes the unknown-error message. -/
def handleCaught : Thrown → GenFailure
  | Thrown.jsError m => GenFailure.apiError m
  | Thrown.nonError => GenFailure.unknownError

/-- One invocation of `generateColoringPage`, given the outcome of its single
outbound `generateContent` call (either a thrown value or a response).  The
try block parses the response, throwing an `Error` on every failure path;
every throw — from the call itself or from the parse — reaches the same
catch block and is re-wrapped.  The second component counts outbound
`generateContent` requests made by the invocation. -/
def generateColoringPageRun (outcome : Except Thrown GenerateContentResponse) :
    Except String String × Nat :=
  match outcome with
  | Except.error e => (Except.error (handleCaught e).message, 1)
  | Except.ok response =>
      match parseResponse response with
      | Except.ok data => (Except.ok data, 1)
      | Except.error f =>
          (Except.error (handleCaught (Thrown.jsError f.message)).message, 1)

/-- The value `generateColoringPage` returns or the message of the error it
throws, as a function of its single call's outcome. -/
def generateColoringPage (outcome : Except Thrown GenerateContentResponse) :
    Except String String :=
  (generateColoringPageRun outcome).1

/-- The number of outbound `generateContent` requests one invocation makes. -/
def outboundCalls (outcome : Except Thrown GenerateContentResponse) : Nat :=
  (generateColoringPageRun outcome).2

/-- `s` contains `phrase` as a contiguous substring. -/
def containsPhrase (s phrase : String) : Prop :=
  ∃ pre post, s = pre ++ phrase ++ post

theorem containsPhrase_appendLeft {a p : String} (h : containsPhrase a p) (b : String) :
    containsPhrase (a ++ b) p := by
  obtain ⟨pre, post, rfl⟩ := h
  exact ⟨pre, post ++ b, by rw [String.append_assoc, String.append_assoc]⟩

theorem containsPhrase_appendRight (a : String) {b p : String} (h : containsPhrase b p) :
    containsPhrase (a ++ b) p := by
  obtain ⟨pre, post, rfl⟩ := h
  exact ⟨a ++ pre, post, by rw [String.append_assoc, String.append_assoc, String.append_assoc]⟩

theorem containsPhrase_middle (a p b : String) : containsPhrase (a ++ p ++ b) p :=
  ⟨a, b, rfl⟩

theorem containsPhrase_suffix (a p : String) : containsPhrase (a ++ p) p :=
  ⟨a, "", (String.append_empty (a ++ p)).symm⟩

/-- C1: a response with no inline-image part among the scanned parts and a
SAFETY or RECITATION finish reason is classified as the SafetyBlocked
failure, and no other kind. -/
theorem parseResponse_safetyBlocked (r : GenerateContentResponse)
    (hno : findImagePart r = none)
    (hreason : rejectionReason r = some "SAFETY" ∨ rejectionReason r = some "RECITATION") :
    parseResponse r = Except.error GenFailure.safetyBlocked ∧
    generateColoringPage (Except.ok r) =
      Except.error (GenFailure.apiError GenFailure.safetyBlocked.message).message := by
  have hparse : parseResponse r = Except.error GenFailure.safetyBlocked := by
    unfold parseResponse
    rw [hno]
    unfold classifyNoImage
    rw [if_pos hreason]
  exact ⟨hparse, by simp [generateColoringPage, generateColoringPageRun, hparse, handleCaught]⟩

/-- Concrete response hitting the safety branch: no candidates content, finish
reason SAFETY. -/
def safetyExample : GenerateContentResponse :=
  { candidates := some [{ content := none, finishReason := some "SAFETY" }], text := none }

/-- C1 witness: the safety classification at a concrete response. -/
theorem parseResponse_safetyBlocked_witness :
    parseResponse safetyExample = Except.error GenFailure.safetyBlocked ∧
    generateColoringPage (Except.ok safetyExample) =
      Except.error (GenFailure.apiError GenFailure.safetyBlocked.message).message :=
  parseResponse_safetyBlocked safetyExample rfl (Or.inl rfl)

/-- C2: a response with no inline-image part, a finish reason that is neither
SAFETY nor RECITATION, and a text field that is non-empty after trimming is
classified as the TextOnlyResponse failure carrying that (trimmed) text, and
no other kind. -/
theorem parseResponse_textOnly (r : GenerateContentResponse) (t : String)
    (hno : findImagePart r = none)
    (hreason : ¬(rejectionReason r = some "SAFETY" ∨ rejectionReason r = some "RECITATION"))
    (htext : r.text = some t) (hne : trimString t ≠ "") :
    parseResponse r = Except.error (GenFailure.textOnlyResponse (trimString t)) ∧
    generateColoringPage (Except.ok r) =
      Except.error (GenFailure.apiError
        (GenFailure.textOnlyResponse (trimString t)).message).message := by
  have hparse : parseResponse r = Except.error (GenFailure.textOnlyResponse (trimString t)) := by
    unfold parseResponse
    rw [hno]
    unfold classifyNoImage
    rw [if_neg hreason, htext]
    simp [hne]
  exact ⟨hparse, by simp [generateColoringPage, generateColoringPageRun, hparse, handleCaught]⟩

/-- Concrete response hitting the text-only branch. -/
def textOnlyExample : GenerateContentResponse :=
  { candidates := none, text := some "I cannot edit this image." }

/-- C2 witness: the text-only classification at a concrete response. -/
theorem parseResponse_textOnly_witness :
    parseResponse textOnlyExample =
      Except.error (GenFailure.textOnlyResponse (trimString "I cannot edit this image.")) ∧
    generateColoringPage (Except.ok textOnlyExample) =
      Except.error (GenFailure.apiError
        (GenFailure.textOnlyResponse (trimString "I cannot edit this image.")).message).message :=
  parseResponse_textOnly textOnlyExample "I cannot edit this image." rfl
    (by simp [rejectionReason, textOnlyExample]) rfl (by decide)

/-- C3: a response with no inline-image part, no safety/recitation finish
reason, and no non-empty text is classified as the NoImageReturned failure,
and no other kind. -/
theorem parseResponse_noImage (r : GenerateContentResponse)
    (hno : findImagePart r = none)
    (hreason : ¬(rejectionReason r = some "SAFETY" ∨ rejectionReason r = some "RECITATION"))
    (htext : ∀ t, r.text = some t → trimString t = "") :
    parseResponse r = Except.error GenFailure.noImageReturned ∧
    generateColoringPage (Except.ok r) =
      Except.error (GenFailure.apiError GenFailure.noImageReturned.message).message := by
  have hparse : parseResponse r = Except.error GenFailure.noImageReturned := by
    unfold parseResponse
    rw [hno]
    unfold classifyNoImage
    rw [if_neg hreason]
    cases h : r.text with
    | none => simp
    | some t => simp [htext t h]
  exact ⟨hparse, by simp [generateColoringPage, generateColoringPageRun, hparse, handleCaught]⟩

/-- Concrete empty response hitting the no-image branch. -/
def emptyExample : GenerateContentResponse :=
  { candidates := none, text := none }

/-- C3 witness: the no-image classification at a concrete response. -/
theorem parseResponse_noImage_witness :
    parseResponse emptyExample = Except.error GenFailure.noImageReturned ∧
    generateColoringPage (Except.ok emptyExample) =
      Except.error (GenFailure.apiError GenFailure.noImageReturned.message).message :=
  parseResponse_noImage emptyExample rfl
    (by simp [rejectionReason, emptyExample]) (fun t h => nomatch h)

/-- C4: a thrown `Error` from the underlying call yields the ApiError failure
wrapping that message; a thrown non-`Error` value yields the UnknownError
failure. -/
theorem generateColoringPage_caught (m : String) :
    generateColoringPage (Except.error (Thrown.jsError m)) =
      Except.error (GenFailure.apiError m).message ∧
    (GenFailure.apiError m).message = "An API error occurred: " ++ m ∧
    generateColoringPage (Except.error Thrown.nonError) =
      Except.error GenFailure.unknownError.message ∧
    GenFailure.unknownError.message =
      "An unknown error occurred while communicating with the API." :=
  ⟨rfl, rfl, rfl, rfl⟩

/-- C5: when the scanned content parts contain a part with inline image data,
the call succeeds with exactly the data field of the first such part. -/
theorem generateColoringPage_success (r : GenerateContentResponse)
    (parts : List Part) (p : Part) (d : InlineData)
    (hparts : scannedParts r = some parts)
    (hfind : parts.find? (fun part => part.inlineData.isSome) = some p)
    (hdata : p.inlineData = some d) :
    generateColoringPage (Except.ok r) = Except.ok d.data := by
  have himg : findImagePart r = some p := by
    unfold findImagePart
    rw [hparts]
    exact hfind
  have hparse : parseResponse r = Except.ok d.data := by
    simp [parseResponse, himg, hdata]
  simp [generateColoringPage, generateColoringPageRun, hparse]

/-- Concrete response carrying an inline image part. -/
def imageExample : GenerateContentResponse :=
  { candidates := some [
      { content := some { parts := some [
          { inlineData := none, text := some "here is your coloring page" },
          { inlineData := some { data := "BASE64IMAGE", mimeType := "image/png" }, text := none }] }
        finishReason := some "STOP" }]
    text := some "here is your coloring page" }

/-- C5 witness: success with the image data at a concrete response. -/
theorem generateColoringPage_success_witness :
    generateColoringPage (Except.ok imageExample) = Except.ok "BASE64IMAGE" :=
  generateColoringPage_success imageExample
    [{ inlineData := none, text := some "here is your coloring page" },
     { inlineData := some { data := "BASE64IMAGE", mimeType := "image/png" }, text := none }]
    { inlineData := some { data := "BASE64IMAGE", mimeType := "image/png" }, text := none }
    { data := "BASE64IMAGE", mimeType := "image/png" }
    rfl rfl rfl

/-- C6: for every combination of line thickness and detail level (all nine),
the composed prompt contains the exact fixed phrase for the thickness value
and the exact fixed phrase for the detail value, requests conversion to a
black and white coloring page of pure line art, and instructs removal of all
shading, gradients, and colors. -/
theorem prompt_contains_phrases (t : LineThickness) (q : ImageQuality) :
    containsPhrase (prompt t q) (thicknessDescription t) ∧
    containsPhrase (prompt t q) (qualityDescription q) ∧
    containsPhrase (prompt t q) "black and white coloring book page" ∧
    containsPhrase (prompt t q) "The final image should be purely line art." ∧
    containsPhrase (prompt t q) "Remove all shading, gradients, and colors." := by
  unfold prompt
  refine ⟨?_, ?_, ?_, ?_, ?_⟩
  · exact containsPhrase_appendLeft (containsPhrase_appendLeft (containsPhrase_middle _ _ _) _) _
  · exact containsPhrase_appendLeft (containsPhrase_suffix _ _) _
  · exact containsPhrase_appendLeft (containsPhrase_appendLeft (containsPhrase_appendLeft
      (containsPhrase_appendLeft
        ⟨"Transform this image into a ",
         ". \nThe output should have clean, simple, and ", by rfl⟩ _) _) _) _
  · exact containsPhrase_appendRight _
      ⟨".\nRemove all shading, gradients, and colors. \nFocus on creating clear, distinct lines suitable for coloring. \n",
       "", by rfl⟩
  · exact containsPhrase_appendRight _
      ⟨".\n",
       " \nFocus on creating clear, distinct lines suitable for coloring. \nThe final image should be purely line art.",
       by rfl⟩

/-- C7: every request submitted carries the input image payload with its
declared media type, the composed prompt text, the response-modality
configuration asking for both image and text, and the fixed hardcoded model
identifier. -/
theorem buildRequest_contents (b m : String) (t : LineThickness) (q : ImageQuality) :
    (buildRequest b m t q).model = "gemini-2.5-flash-image-preview" ∧
    ({ inlineData := some { data := b, mimeType := m }, text := none } : Part)
      ∈ (buildRequest b m t q).parts ∧
    ({ inlineData := none, text := some (prompt t q) } : Part)
      ∈ (buildRequest b m t q).parts ∧
    (buildRequest b m t q).responseModalities = [Modality.IMAGE, Modality.TEXT] := by
  refine ⟨rfl, ?_, ?_, rfl⟩
  · exact List.mem_cons_self _ _
  · exact List.mem_cons_of_mem _ (List.mem_cons_self _ _)

/-- C8: one invocation performs exactly one outbound generateContent request,
whatever the call's outcome; in particular no failure path issues a second
request. -/
theorem outboundCalls_eq_one (outcome : Except Thrown GenerateContentResponse) :
    outboundCalls outcome = 1 := by
  cases outcome with
  | error e => rfl
  | ok r =>
      unfold outboundCalls generateColoringPageRun
      cases hp : parseResponse r <;> simp [hp]

/-- C9: every error thrown to the caller has a message that either starts
with the API-error prefix or equals the fixed unknown-error message; the
internally thrown safety, text-only and no-image errors are re-wrapped by the
catch block with that prefix. -/
theorem errorMessage_shape (outcome : Except Thrown GenerateContentResponse) (m : String)
    (h : generateColoringPage outcome = Except.error m) :
    (∃ rest, m = "An API error occurred: " ++ rest) ∨
    m = "An unknown error occurred while communicating with the API." := by
  cases outcome with
  | error e =>
      cases e with
      | jsError msg =>
          simp [generateColoringPage, generateColoringPageRun, handleCaught,
            GenFailure.message] at h
          exact Or.inl ⟨msg, h.symm⟩
      | nonError =>
          simp [generateColoringPage, generateColoringPageRun, handleCaught,
            GenFailure.message] at h
          exact Or.inr h.symm
  | ok r =>
      cases hp : parseResponse r with
      | ok d =>
          simp [generateColoringPage, generateColoringPageRun, hp] at h
      | error f =>
          simp [generateColoringPage, generateColoringPageRun, hp, handleCaught,
            GenFailure.message] at h
          exact Or.inl ⟨f.message, h.symm⟩

/-- C9 witness: the error-message shape at the concrete non-Error thrown
outcome. -/
theorem errorMessage_shape_witness :
    (∃ rest, "An unknown error occurred while communicating with the API." =
      "An API error occurred: " ++ rest) ∨
    "An unknown error occurred while communicating with the API." =
      "An unknown error occurred while communicating with the API." :=
  errorMessage_shape (Except.error Thrown.nonError) _ rfl

/-- C10: only the first candidate is inspected: when the first candidate's
parts carry no inline image data, the call fails, whatever the later
candidates contain. -/
theorem firstCandidate_only (r : GenerateContentResponse) (c : Candidate)
    (hc : r.candidates.bind List.head? = some c)
    (hnoimg : ((c.content.bind Content.parts).getD []).all
      (fun p => p.inlineData.isNone) = true) :
    ∃ m, generateColoringPage (Except.ok r) = Except.error m := by
  have hscan : scannedParts r = c.content.bind Content.parts := by
    simp [scannedParts, hc]
  have hfind : findImagePart r = none := by
    unfold findImagePart
    rw [hscan]
    cases hcp : c.content.bind Content.parts with
    | none => rfl
    | some ps =>
        rw [hcp] at hnoimg
        simp only [Option.getD_some, List.all_eq_true] at hnoimg
        refine List.find?_eq_none.mpr fun p hp => ?_
        have h2 := hnoimg p hp
        simp only [Option.isNone_iff_eq_none] at h2
        simp [h2]
  have hparse : parseResponse r = Except.error (classifyNoImage r) := by
    simp [parseResponse, hfind]
  refine ⟨(GenFailure.apiError (classifyNoImage r).message).message, ?_⟩
  simp [generateColoringPage, generateColoringPageRun, hparse, handleCaught]

/-- Concrete response whose first candidate has no image part while its
second candidate does. -/
def laterCandidateExample : GenerateContentResponse :=
  { candidates := some [
      { content := some { parts := some [{ inlineData := none, text := some "no image here" }] }
        finishReason := some "STOP" },
      { content := some { parts := some [
          { inlineData := some { data := "LATEIMAGE", mimeType := "image/png" }, text := none }] }
        finishReason := some "STOP" }]
    text := none }

/-- C10 witness: the call fails on a concrete response whose second candidate
carries an image but whose first does not. -/
theorem firstCandidate_only_witness :
    ∃ m, generateColoringPage (Except.ok laterCandidateExample) = Except.error m :=
  firstCandidate_only laterCandidateExample
    { content := some { parts := some [{ inlineData := none, text := some "no image here" }] }
      finishReason := some "STOP" }
    rfl rfl

end ColoringPage
